import Mathlib

/-
Shallow embedding of the StripeConnect service (src/src/service/StripeConnect.ts).

Modelling conventions:
- The provider SDK handle stripe(this.stripeSecretKey) and the network are modelled
  as oracle function parameters.  A retried call is modelled as an oracle that also
  receives the attempt number (the value of the retries counter at the time of the
  call), since the real provider may answer differently on each attempt.
- Provider response objects that the code treats as opaque (any-typed charges,
  customers, refunds, tokens) are a type parameter.
- JS undefined and optional values are modelled as Option.  A TS default parameter
  is modelled as an Option argument resolved with getD at the top of the function,
  which matches the JS semantics (the default fires exactly when the caller passes
  undefined).
- Thrown JS exceptions are modelled with Except; the four wrapper error classes
  (CardError, ChargeError, RefundError, StripeAuthorisationError) are constructors
  of Thrown, and an unwrapped provider error rethrown as-is is Thrown.raw.
- Each public method also returns a trace of the outbound provider calls it makes
  (and, for the retried methods, of the backoff sleeps produced by runWithDelay),
  so that claims about attempt counts, delays and request contents are statable.
  console.log calls are not traced.
-/

/-- Provider-side error object.  The code inspects error.rawType and error.message
(createRefundForCharge, lines 427-435); other fields are not consulted. -/
structure StripeError where
  rawType : String
  message : String
deriving DecidableEq, Repr

/-- The four wrapper error classes of src/src/error plus Thrown.raw for a provider
error that propagates to the caller without wrapping (the token exchange in
createChargeByCard is outside any try block). -/
inductive Thrown where
  | raw (e : StripeError)
  | cardError (e : StripeError)
  | chargeError (e : StripeError)
  | refundError (e : StripeError)
  | authorisationError (payload : String)
deriving DecidableEq, Repr

/-- Decidable equality for Except results, used to evaluate the embedding on
closed inputs. -/
instance (ε α : Type) [DecidableEq ε] [DecidableEq α] : DecidableEq (Except ε α)
  | Except.error e1, Except.error e2 =>
      if h : e1 = e2 then Decidable.isTrue (congrArg Except.error h)
      else Decidable.isFalse (fun hc => h (by injection hc))
  | Except.error _, Except.ok _ => Decidable.isFalse (fun hc => Except.noConfusion hc)
  | Except.ok _, Except.error _ => Decidable.isFalse (fun hc => Except.noConfusion hc)
  | Except.ok a1, Except.ok a2 =>
      if h : a1 = a2 then Decidable.isTrue (congrArg Except.ok h)
      else Decidable.isFalse (fun hc => h (by injection hc))

/-- Free-form metadata map (any-typed in the source), as an association list. -/
abbrev Metadata := List (String × String)

/-- Configuration object from src/src/configuration/StripeConnectConfiguration.ts. -/
structure StripeConnectConfiguration where
  stripeSecretKey : String
  stripeClientId : String
  stripeConnectAuthorizeURL : String
  stripeConnectDeAuthorizeURL : String
deriving DecidableEq, Repr

/-- First argument of stripe.charges.create (lines 283-291 and 365-371). -/
structure ChargeRequest where
  amount : Int
  currency : String
  description : String
  customer : Option String
  application_fee : Int
  source : String
  metadata : Metadata
deriving DecidableEq, Repr

/-- Second argument of stripe.charges.create (lines 291-294 and 372-375). -/
structure ChargeOptions where
  stripe_account : String
  idempotency_key : String
deriving DecidableEq, Repr

/-- First argument of stripe.tokens.create (lines 353-356). -/
structure TokenCreateRequest where
  card : String
  customer : Option String
deriving DecidableEq, Repr

/-- Second argument of stripe.tokens.create (lines 356-358). -/
structure TokenCreateOptions where
  stripe_account : String
deriving DecidableEq, Repr

/-- Provider token object; the code reads only cardToken.id (line 370). -/
structure StripeToken where
  id : String
deriving DecidableEq, Repr

/-- Outbound events of the two charge-creation methods: the initial token exchange
of createChargeByCard, each charges.create attempt with the request actually sent,
and each backoff suspension produced by runWithDelay. -/
inductive ChargeEvent where
  | tokenExchange (req : TokenCreateRequest) (opts : TokenCreateOptions)
  | attempt (req : ChargeRequest) (opts : ChargeOptions)
  | sleep (ms : Nat)
deriving DecidableEq, Repr

/-- True exactly on charges.create attempts. -/
def ChargeEvent.isAttempt : ChargeEvent → Bool
  | ChargeEvent.attempt _ _ => true
  | _ => false

/-- Number of charges.create attempts in a trace. -/
def chargeAttemptCount (trace : List ChargeEvent) : Nat :=
  trace.countP ChargeEvent.isAttempt

/-- The backoff durations of a trace, in order. -/
def chargeSleeps (trace : List ChargeEvent) : List Nat :=
  trace.filterMap (fun e => match e with | ChargeEvent.sleep d => some d | _ => none)

/-- The while loop shared verbatim by createChargeByToken (lines 277-307) and
createChargeByCard (lines 360-387).  The loop variables delay and retries are the
arguments; the request and options literals are rebuilt from loop-invariant
variables each iteration, so they are passed in once.  The loop condition
(retries < 3 && !complete) can only be re-tested after the retry branch, and
complete is never true there, so the Bool complete is dropped and a success
returns directly, as in the source.  fuel is a structural-recursion bound: the
retry branch requires retries < 2, so from the entry point (fuel 3, retries 0)
the recursion depth is at most 3 and the fuel-0 branch, which mirrors the
loop-condition exit (the JS function then returns undefined, modelled as
Except.ok none), is unreachable. -/
def chargesCreateLoop (α : Type) (charges_create : ChargeRequest → ChargeOptions → Nat → Except StripeError α)
    (req : ChargeRequest) (opts : ChargeOptions) :
    Nat → Nat → Nat → List ChargeEvent × Except Thrown (Option α)
  | fuel + 1, delay, retries =>
    if retries < 3 then
      match charges_create req opts retries with
      | Except.ok charge => ([ChargeEvent.attempt req opts], Except.ok (some charge))
      | Except.error e =>
        if retries < 2 then
          let rest := chargesCreateLoop α charges_create req opts fuel (delay * 2) (retries + 1)
          (ChargeEvent.attempt req opts :: ChargeEvent.sleep delay :: rest.1, rest.2)
        else
          ([ChargeEvent.attempt req opts], Except.error (Thrown.chargeError e))
    else ([], Except.ok none)
  | 0, _, _ => ([], Except.ok none)

/-- The charges.create request literal of createChargeByToken (lines 283-291). -/
def chargeByTokenRequest (token : String) (customer : Option String)
    (amountInCents applicationFeeInCents : Int) (currency description : String)
    (metadata : Metadata) : ChargeRequest :=
  { amount := amountInCents, currency := currency, description := description,
    customer := customer, application_fee := applicationFeeInCents,
    source := token, metadata := metadata }

/-- The charges.create options literal (lines 291-294 and 372-375). -/
def chargeCallOptions (stripeAccount idempotency_key : String) : ChargeOptions :=
  { stripe_account := stripeAccount, idempotency_key := idempotency_key }

/-- The charges.create request literal of createChargeByCard (lines 365-371).
The source literal has no customer key (unlike the one at lines 283-291); an
absent key is modelled as customer := none. -/
def chargeByCardRequest (cardTokenId : String)
    (amountInCents applicationFeeInCents : Int) (currency description : String)
    (metadata : Metadata) : ChargeRequest :=
  { amount := amountInCents, currency := currency, description := description,
    customer := none, application_fee := applicationFeeInCents,
    source := cardTokenId, metadata := metadata }

/-- createChargeByToken (lines 274-308). -/
def createChargeByToken (α : Type)
    (charges_create : ChargeRequest → ChargeOptions → Nat → Except StripeError α)
    (stripeAccount token : String) (customer : Option String)
    (amountInCents applicationFeeInCents : Int)
    (currency description idempotency_key : String) (metadata : Metadata) :
    List ChargeEvent × Except Thrown (Option α) :=
  chargesCreateLoop α charges_create
    (chargeByTokenRequest token customer amountInCents applicationFeeInCents currency description metadata)
    (chargeCallOptions stripeAccount idempotency_key)
    3 1000 0

/-- createChargeByCard (lines 350-388): a single stripe.tokens.create call outside
any try block (lines 353-358), then the same retry loop with the derived token id
as source. -/
def createChargeByCard (α : Type)
    (tokens_create : TokenCreateRequest → TokenCreateOptions → Except StripeError StripeToken)
    (charges_create : ChargeRequest → ChargeOptions → Nat → Except StripeError α)
    (stripeAccount card : String) (customer : Option String)
    (amountInCents applicationFeeInCents : Int)
    (currency description idempotency_key : String) (metadata : Metadata) :
    List ChargeEvent × Except Thrown (Option α) :=
  match tokens_create { card := card, customer := customer } { stripe_account := stripeAccount } with
  | Except.error e => ([ChargeEvent.tokenExchange { card := card, customer := customer } { stripe_account := stripeAccount }], Except.error (Thrown.raw e))
  | Except.ok cardToken =>
    let rest := chargesCreateLoop α charges_create
      (chargeByCardRequest cardToken.id amountInCents applicationFeeInCents currency description metadata)
      (chargeCallOptions stripeAccount idempotency_key)
      3 1000 0
    (ChargeEvent.tokenExchange { card := card, customer := customer } { stripe_account := stripeAccount } :: rest.1, rest.2)

/-- First argument of stripe.refunds.create (lines 418-423). -/
structure RefundRequest where
  charge : String
  amount : Option Int
  refund_application_fee : Bool
  reason : String
deriving DecidableEq, Repr

/-- Second argument of stripe.refunds.create (lines 423-425). -/
structure RefundOptions where
  stripe_account : String
deriving DecidableEq, Repr

/-- The object literal returned on an invalid_request_error (lines 430-435). -/
structure DashboardRefund where
  id : String
  balance_transaction : String
  amount : Option Int
  charge : String
deriving DecidableEq, Repr

/-- Outbound events of createRefundForCharge. -/
inductive RefundEvent where
  | attempt (req : RefundRequest) (opts : RefundOptions)
  | sleep (ms : Nat)
deriving DecidableEq, Repr

/-- True exactly on refunds.create attempts. -/
def RefundEvent.isAttempt : RefundEvent → Bool
  | RefundEvent.attempt _ _ => true
  | _ => false

/-- Number of refunds.create attempts in a trace. -/
def refundAttemptCount (trace : List RefundEvent) : Nat :=
  trace.countP RefundEvent.isAttempt

/-- The backoff durations of a refund trace, in order. -/
def refundSleeps (trace : List RefundEvent) : List Nat :=
  trace.filterMap (fun e => match e with | RefundEvent.sleep d => some d | _ => none)

/-- The while loop of createRefundForCharge (lines 412-444).  Same shape as
chargesCreateLoop, with the extra catch branch for invalid_request_error
(lines 429-435): it returns the dashboard sentinel object built from the error
message and the loop-invariant amount and charge arguments (req.amount and
req.charge are exactly the amountInCents and chargeToken variables the source
reads at lines 433-434).  A success is Sum.inl (the provider refund object), the
sentinel is Sum.inr. -/
def refundsCreateLoop (α : Type)
    (refunds_create : RefundRequest → RefundOptions → Nat → Except StripeError α)
    (req : RefundRequest) (opts : RefundOptions) :
    Nat → Nat → Nat → List RefundEvent × Except Thrown (Option (α ⊕ DashboardRefund))
  | fuel + 1, delay, retries =>
    if retries < 3 then
      match refunds_create req opts retries with
      | Except.ok refund => ([RefundEvent.attempt req opts], Except.ok (some (Sum.inl refund)))
      | Except.error e =>
        if e.rawType = "invalid_request_error" then
          ([RefundEvent.attempt req opts],
            Except.ok (some (Sum.inr
              { id := "STRIPE_DASHBOARD", balance_transaction := e.message,
                amount := req.amount, charge := req.charge })))
        else if retries < 2 then
          let rest := refundsCreateLoop α refunds_create req opts fuel (delay * 2) (retries + 1)
          (RefundEvent.attempt req opts :: RefundEvent.sleep delay :: rest.1, rest.2)
        else
          ([RefundEvent.attempt req opts], Except.error (Thrown.refundError e))
    else ([], Except.ok none)
  | 0, _, _ => ([], Except.ok none)

/-- The refunds.create request literal (lines 418-423), built from the resolved
(post-default) reason and flag. -/
def refundRequestOf (chargeToken : String) (amountInCents : Option Int)
    (refundApplicationFee : Bool) (reason : String) : RefundRequest :=
  { charge := chargeToken, amount := amountInCents,
    refund_application_fee := refundApplicationFee, reason := reason }

/-- The refunds.create options literal (lines 423-425). -/
def refundCallOptions (stripeAccount : String) : RefundOptions :=
  { stripe_account := stripeAccount }

/-- createRefundForCharge (lines 411-445).  The TS signature defaults are
reason = the string literal at line 411 and refundApplicationFee = true; they are
modelled as Option arguments resolved with getD. -/
def createRefundForCharge (α : Type)
    (refunds_create : RefundRequest → RefundOptions → Nat → Except StripeError α)
    (stripeAccount chargeToken : String) (reason : Option String)
    (refundApplicationFee : Option Bool) (amountInCents : Option Int) :
    List RefundEvent × Except Thrown (Option (α ⊕ DashboardRefund)) :=
  refundsCreateLoop α refunds_create
    (refundRequestOf chargeToken amountInCents (refundApplicationFee.getD true) (reason.getD "request_by_customer"))
    (refundCallOptions stripeAccount)
    3 1000 0

/-- The TS union type of the grantType parameter (line 474). -/
inductive GrantType where
  | authorization_code
  | refresh_token
deriving DecidableEq, Repr

/-- The form body of the connect POST (lines 479-490): the base literal of lines
479-483 plus the conditionally added code or refresh_token key (lines 486-490);
an absent key is none. -/
structure ConnectForm where
  grant_type : GrantType
  client_id : String
  client_secret : String
  code : Option String
  refresh_token : Option String
deriving DecidableEq, Repr

/-- The request-promise options object of connectAccountToStripeConnect
(lines 476-490). -/
structure HttpOptions where
  method : String
  uri : String
  form : ConnectForm
deriving DecidableEq, Repr

/-- Transport-level failure of rp.post; the code reads error.error (line 496),
the provider error payload. -/
structure TransportError where
  error : String
deriving DecidableEq, Repr

/-- The TS default value of the grantType parameter (line 474), modelled as an
Option resolved here. -/
def grantTypeOrDefault (grantType : Option GrantType) : GrantType :=
  grantType.getD GrantType.authorization_code

/-- The options object built by connectAccountToStripeConnect (lines 476-490):
method POST to the configured authorize URL, form carrying the grant type, the
client id and the secret key as client secret, plus code exactly for
authorization_code and refresh_token otherwise. -/
def connectOptions (config : StripeConnectConfiguration) (tokenOrCode : String)
    (grantType : GrantType) : HttpOptions :=
  let base : ConnectForm :=
    { grant_type := grantType, client_id := config.stripeClientId,
      client_secret := config.stripeSecretKey, code := none, refresh_token := none }
  let form : ConnectForm :=
    match grantType with
    | GrantType.authorization_code => { base with code := some tokenOrCode }
    | GrantType.refresh_token => { base with refresh_token := some tokenOrCode }
  { method := "POST", uri := config.stripeConnectAuthorizeURL, form := form }

/-- connectAccountToStripeConnect (lines 474-498).  rp.post is the transport
oracle; JSON.parse of a successful body is the jsonParse oracle (a parse failure
inside the same try block is not modelled, it is outside every claim).  A
transport failure throws StripeAuthorisationError(error.error). -/
def connectAccountToStripeConnect (α : Type)
    (post : HttpOptions → Except TransportError String) (jsonParse : String → α)
    (config : StripeConnectConfiguration) (tokenOrCode : String)
    (grantType : Option GrantType) : Except Thrown α :=
  match post (connectOptions config tokenOrCode (grantTypeOrDefault grantType)) with
  | Except.ok responseFromServer => Except.ok (jsonParse responseFromServer)
  | Except.error e => Except.error (Thrown.authorisationError e.error)

/-- Provider card object; the code reads id, brand, exp_month, exp_year, last4
(lines 545-553). -/
structure StripeCard where
  id : String
  brand : String
  exp_month : Int
  exp_year : Int
  last4 : String
deriving DecidableEq, Repr

/-- Output card model from src/src/model/PaymentCard.ts. -/
structure PaymentCard where
  id : String
  brand : String
  expirationMonth : Int
  expirationYear : Int
  lastFourDigits : String
deriving DecidableEq, Repr

/-- buildFromStripeCard (lines 545-553). -/
def buildFromStripeCard (stripeCard : StripeCard) : PaymentCard :=
  { id := stripeCard.id, brand := stripeCard.brand,
    expirationMonth := stripeCard.exp_month, expirationYear := stripeCard.exp_year,
    lastFourDigits := stripeCard.last4 }

/-- Argument of stripe.customers.create (lines 113-116). -/
structure CustomerCreateRequest where
  email : String
  source : String
deriving DecidableEq, Repr

/-- createCustomer (lines 111-121): one provider call, any failure wrapped in
CardError.  The first component is the list of provider calls made. -/
def createCustomer (α : Type)
    (customers_create : CustomerCreateRequest → Except StripeError α)
    (email tokenId : String) : List CustomerCreateRequest × Except Thrown α :=
  let req : CustomerCreateRequest := { email := email, source := tokenId }
  match customers_create req with
  | Except.ok customer => ([req], Except.ok customer)
  | Except.error e => ([req], Except.error (Thrown.cardError e))

/-- retrieveToken (lines 141-148): one stripe.tokens.retrieve call, failure
wrapped in CardError. -/
def retrieveToken (α : Type) (tokens_retrieve : String → Except StripeError α)
    (tokenId : String) : List String × Except Thrown α :=
  match tokens_retrieve tokenId with
  | Except.ok stripeToken => ([tokenId], Except.ok stripeToken)
  | Except.error e => ([tokenId], Except.error (Thrown.cardError e))

/-- Second argument of stripe.customers.createSource (line 165). -/
structure SourceCreateRequest where
  source : String
deriving DecidableEq, Repr

/-- createCard (lines 163-172): one stripe.customers.createSource call, the
result mapped through buildFromStripeCard, failure wrapped in CardError. -/
def createCard
    (customers_createSource : String → SourceCreateRequest → Except StripeError StripeCard)
    (customerId tokenId : String) :
    List (String × SourceCreateRequest) × Except Thrown PaymentCard :=
  match customers_createSource customerId { source := tokenId } with
  | Except.ok stripeSource => ([(customerId, { source := tokenId })], Except.ok (buildFromStripeCard stripeSource))
  | Except.error e => ([(customerId, { source := tokenId })], Except.error (Thrown.cardError e))

/-- removeCard (lines 182-189): one stripe.customers.deleteCard call, failure
wrapped in CardError. -/
def removeCard (α : Type)
    (customers_deleteCard : String → String → Except StripeError α)
    (customerId cardId : String) : List (String × String) × Except Thrown α :=
  match customers_deleteCard customerId cardId with
  | Except.ok deletion => ([(customerId, cardId)], Except.ok deletion)
  | Except.error e => ([(customerId, cardId)], Except.error (Thrown.cardError e))

/-- loadCards (lines 200-208): one stripe.customers.listCards call; the oracle
returns the cards.data array, which is mapped through buildFromStripeCard;
failure wrapped in CardError. -/
def loadCards (customers_listCards : String → Except StripeError (List StripeCard))
    (customerId : String) : List String × Except Thrown (List PaymentCard) :=
  match customers_listCards customerId with
  | Except.ok cards => ([customerId], Except.ok (cards.map (fun stripeCard => buildFromStripeCard stripeCard)))
  | Except.error e => ([customerId], Except.error (Thrown.cardError e))

/-- First argument of stripe.charges.list (lines 225-227). -/
structure ChargesListRequest where
  limit : Option Int
deriving DecidableEq, Repr

/-- Second argument of stripe.charges.list (lines 227-229). -/
structure ChargesListOptions where
  stripe_account : String
deriving DecidableEq, Repr

/-- loadCharges (lines 223-234): one stripe.charges.list call; the oracle returns
the charges.data array; failure wrapped in CardError. -/
def loadCharges (α : Type)
    (charges_list : ChargesListRequest → ChargesListOptions → Except StripeError (List α))
    (stripeAccount : String) (limit : Option Int) :
    List (ChargesListRequest × ChargesListOptions) × Except Thrown (List α) :=
  let req : ChargesListRequest := { limit := limit }
  let opts : ChargesListOptions := { stripe_account := stripeAccount }
  match charges_list req opts with
  | Except.ok charges => ([(req, opts)], Except.ok charges)
  | Except.error e => ([(req, opts)], Except.error (Thrown.cardError e))

/-! Concrete provider oracles and objects used to evaluate the embedding on
closed inputs. -/

/-- Charge oracle that fails on the first two attempts and succeeds on the third. -/
def wChargesFailTwice : ChargeRequest → ChargeOptions → Nat → Except StripeError String :=
  fun _ _ n =>
    if n < 2 then Except.error { rawType := "api_error", message := "temporary failure" }
    else Except.ok "ch_success"

/-- Charge oracle that always succeeds. -/
def wChargesAlwaysOk : ChargeRequest → ChargeOptions → Nat → Except StripeError String :=
  fun _ _ _ => Except.ok "ch_success"

/-- Charge oracle that fails on every attempt. -/
def wChargesAlwaysFail : ChargeRequest → ChargeOptions → Nat → Except StripeError String :=
  fun _ _ _ => Except.error { rawType := "api_error", message := "temporary failure" }

/-- Token-exchange oracle that succeeds with a fixed derived token. -/
def wTokensCreateOk : TokenCreateRequest → TokenCreateOptions → Except StripeError StripeToken :=
  fun _ _ => Except.ok { id := "tok_derived" }

/-- Token-exchange oracle that fails. -/
def wTokensCreateFail : TokenCreateRequest → TokenCreateOptions → Except StripeError StripeToken :=
  fun _ _ => Except.error { rawType := "api_connection_error", message := "network down" }

/-- Refund oracle that always succeeds. -/
def wRefundsAlwaysOk : RefundRequest → RefundOptions → Nat → Except StripeError String :=
  fun _ _ _ => Except.ok "re_success"

/-- Refund oracle that reports an invalid-request class error on every attempt. -/
def wRefundsInvalidRequest : RefundRequest → RefundOptions → Nat → Except StripeError String :=
  fun _ _ _ =>
    Except.error { rawType := "invalid_request_error", message := "already refunded in dashboard" }

/-- Refund oracle that fails on every attempt with a non-invalid-request error. -/
def wRefundsAlwaysFail : RefundRequest → RefundOptions → Nat → Except StripeError String :=
  fun _ _ _ => Except.error { rawType := "api_error", message := "temporary failure" }

/-- Customer-creation oracle that fails. -/
def wCustomersCreateFail : CustomerCreateRequest → Except StripeError String :=
  fun _ => Except.error { rawType := "api_error", message := "temporary failure" }

/-- Token-retrieval oracle that succeeds. -/
def wTokensRetrieveOk : String → Except StripeError String :=
  fun tokenId => Except.ok tokenId

/-- A concrete provider card. -/
def wCard1 : StripeCard :=
  { id := "card_1", brand := "Visa", exp_month := 1, exp_year := 2030, last4 := "4242" }

/-- Another concrete provider card. -/
def wCard2 : StripeCard :=
  { id := "card_2", brand := "MasterCard", exp_month := 12, exp_year := 2028, last4 := "4444" }

/-- Source-creation oracle that succeeds with a fixed card. -/
def wCreateSourceOk : String → SourceCreateRequest → Except StripeError StripeCard :=
  fun _ _ => Except.ok wCard1

/-- Card-deletion oracle that succeeds. -/
def wDeleteCardOk : String → String → Except StripeError String :=
  fun _ _ => Except.ok "deleted"

/-- Card-listing oracle that returns two cards. -/
def wListCardsOk : String → Except StripeError (List StripeCard) :=
  fun _ => Except.ok [wCard1, wCard2]

/-- Charge-listing oracle that returns two charges. -/
def wChargesListOk : ChargesListRequest → ChargesListOptions → Except StripeError (List String) :=
  fun _ _ => Except.ok ["ch_1", "ch_2"]

/-- Transport oracle that fails with a fixed provider payload. -/
def wPostFail : HttpOptions → Except TransportError String :=
  fun _ => Except.error { error := "invalid_grant" }

/-- Identity JSON-parse oracle. -/
def wJsonParseId : String → String :=
  fun body => body

/-! Helper lemmas: exhaustive evaluation of the two retry loops from the entry
point (fuel 3, delay 1000, retries 0), one lemma per possible outcome shape. -/

theorem chargesLoop_ok0 (α : Type) (f : ChargeRequest → ChargeOptions → Nat → Except StripeError α)
    (req : ChargeRequest) (opts : ChargeOptions) (c : α) (h0 : f req opts 0 = Except.ok c) :
    chargesCreateLoop α f req opts 3 1000 0 = ([ChargeEvent.attempt req opts], Except.ok (some c)) := by
  simp [chargesCreateLoop, h0]

theorem chargesLoop_ok1 (α : Type) (f : ChargeRequest → ChargeOptions → Nat → Except StripeError α)
    (req : ChargeRequest) (opts : ChargeOptions) (e0 : StripeError) (c : α)
    (h0 : f req opts 0 = Except.error e0) (h1 : f req opts 1 = Except.ok c) :
    chargesCreateLoop α f req opts 3 1000 0
      = ([ChargeEvent.attempt req opts, ChargeEvent.sleep 1000, ChargeEvent.attempt req opts],
         Except.ok (some c)) := by
  simp [chargesCreateLoop, h0, h1]

theorem chargesLoop_ok2 (α : Type) (f : ChargeRequest → ChargeOptions → Nat → Except StripeError α)
    (req : ChargeRequest) (opts : ChargeOptions) (e0 e1 : StripeError) (c : α)
    (h0 : f req opts 0 = Except.error e0) (h1 : f req opts 1 = Except.error e1)
    (h2 : f req opts 2 = Except.ok c) :
    chargesCreateLoop α f req opts 3 1000 0
      = ([ChargeEvent.attempt req opts, ChargeEvent.sleep 1000, ChargeEvent.attempt req opts,
          ChargeEvent.sleep 2000, ChargeEvent.attempt req opts], Except.ok (some c)) := by
  simp [chargesCreateLoop, h0, h1, h2]

theorem chargesLoop_exhaust (α : Type) (f : ChargeRequest → ChargeOptions → Nat → Except StripeError α)
    (req : ChargeRequest) (opts : ChargeOptions) (e0 e1 e2 : StripeError)
    (h0 : f req opts 0 = Except.error e0) (h1 : f req opts 1 = Except.error e1)
    (h2 : f req opts 2 = Except.error e2) :
    chargesCreateLoop α f req opts 3 1000 0
      = ([ChargeEvent.attempt req opts, ChargeEvent.sleep 1000, ChargeEvent.attempt req opts,
          ChargeEvent.sleep 2000, ChargeEvent.attempt req opts],
         Except.error (Thrown.chargeError e2)) := by
  simp [chargesCreateLoop, h0, h1, h2]

theorem refundsLoop_ok0 (α : Type) (f : RefundRequest → RefundOptions → Nat → Except StripeError α)
    (req : RefundRequest) (opts : RefundOptions) (c : α) (h0 : f req opts 0 = Except.ok c) :
    refundsCreateLoop α f req opts 3 1000 0
      = ([RefundEvent.attempt req opts], Except.ok (some (Sum.inl c))) := by
  simp [refundsCreateLoop, h0]

theorem refundsLoop_inv0 (α : Type) (f : RefundRequest → RefundOptions → Nat → Except StripeError α)
    (req : RefundRequest) (opts : RefundOptions) (e0 : StripeError)
    (h0 : f req opts 0 = Except.error e0) (hi : e0.rawType = "invalid_request_error") :
    refundsCreateLoop α f req opts 3 1000 0
      = ([RefundEvent.attempt req opts],
         Except.ok (some (Sum.inr
           { id := "STRIPE_DASHBOARD", balance_transaction := e0.message,
             amount := req.amount, charge := req.charge }))) := by
  simp [refundsCreateLoop, h0, hi]

theorem refundsLoop_ok1 (α : Type) (f : RefundRequest → RefundOptions → Nat → Except StripeError α)
    (req : RefundRequest) (opts : RefundOptions) (e0 : StripeError) (c : α)
    (h0 : f req opts 0 = Except.error e0) (hn0 : e0.rawType ≠ "invalid_request_error")
    (h1 : f req opts 1 = Except.ok c) :
    refundsCreateLoop α f req opts 3 1000 0
      = ([RefundEvent.attempt req opts, RefundEvent.sleep 1000, RefundEvent.attempt req opts],
         Except.ok (some (Sum.inl c))) := by
  simp [refundsCreateLoop, h0, hn0, h1]

theorem refundsLoop_inv1 (α : Type) (f : RefundRequest → RefundOptions → Nat → Except StripeError α)
    (req : RefundRequest) (opts : RefundOptions) (e0 e1 : StripeError)
    (h0 : f req opts 0 = Except.error e0) (hn0 : e0.rawType ≠ "invalid_request_error")
    (h1 : f req opts 1 = Except.error e1) (hi : e1.rawType = "invalid_request_error") :
    refundsCreateLoop α f req opts 3 1000 0
      = ([RefundEvent.attempt req opts, RefundEvent.sleep 1000, RefundEvent.attempt req opts],
         Except.ok (some (Sum.inr
           { id := "STRIPE_DASHBOARD", balance_transaction := e1.message,
             amount := req.amount, charge := req.charge }))) := by
  simp [refundsCreateLoop, h0, hn0, h1, hi]

theorem refundsLoop_ok2 (α : Type) (f : RefundRequest → RefundOptions → Nat → Except StripeError α)
    (req : RefundRequest) (opts : RefundOptions) (e0 e1 : StripeError) (c : α)
    (h0 : f req opts 0 = Except.error e0) (hn0 : e0.rawType ≠ "invalid_request_error")
    (h1 : f req opts 1 = Except.error e1) (hn1 : e1.rawType ≠ "invalid_request_error")
    (h2 : f req opts 2 = Except.ok c) :
    refundsCreateLoop α f req opts 3 1000 0
      = ([RefundEvent.attempt req opts, RefundEvent.sleep 1000, RefundEvent.attempt req opts,
          RefundEvent.sleep 2000, RefundEvent.attempt req opts],
         Except.ok (some (Sum.inl c))) := by
  simp [refundsCreateLoop, h0, hn0, h1, hn1, h2]

theorem refundsLoop_inv2 (α : Type) (f : RefundRequest → RefundOptions → Nat → Except StripeError α)
    (req : RefundRequest) (opts : RefundOptions) (e0 e1 e2 : StripeError)
    (h0 : f req opts 0 = Except.error e0) (hn0 : e0.rawType ≠ "invalid_request_error")
    (h1 : f req opts 1 = Except.error e1) (hn1 : e1.rawType ≠ "invalid_request_error")
    (h2 : f req opts 2 = Except.error e2) (hi : e2.rawType = "invalid_request_error") :
    refundsCreateLoop α f req opts 3 1000 0
      = ([RefundEvent.attempt req opts, RefundEvent.sleep 1000, RefundEvent.attempt req opts,
          RefundEvent.sleep 2000, RefundEvent.attempt req opts],
         Except.ok (some (Sum.inr
           { id := "STRIPE_DASHBOARD", balance_transaction := e2.message,
             amount := req.amount, charge := req.charge }))) := by
  simp [refundsCreateLoop, h0, hn0, h1, hn1, h2, hi]

theorem refundsLoop_exhaust (α : Type) (f : RefundRequest → RefundOptions → Nat → Except StripeError α)
    (req : RefundRequest) (opts : RefundOptions) (e0 e1 e2 : StripeError)
    (h0 : f req opts 0 = Except.error e0) (hn0 : e0.rawType ≠ "invalid_request_error")
    (h1 : f req opts 1 = Except.error e1) (hn1 : e1.rawType ≠ "invalid_request_error")
    (h2 : f req opts 2 = Except.error e2) (hn2 : e2.rawType ≠ "invalid_request_error") :
    refundsCreateLoop α f req opts 3 1000 0
      = ([RefundEvent.attempt req opts, RefundEvent.sleep 1000, RefundEvent.attempt req opts,
          RefundEvent.sleep 2000, RefundEvent.attempt req opts],
         Except.error (Thrown.refundError e2)) := by
  simp [refundsCreateLoop, h0, hn0, h1, hn1, h2, hn2]

/-- Shape of every possible charge-loop trace: at most 3 attempts, and the
backoff suspensions are 1000ms after the first failed attempt and 2000ms after
the second, i.e. the first (attempts - 1) entries of [1000, 2000]. -/
theorem chargesLoop_shape (α : Type) (f : ChargeRequest → ChargeOptions → Nat → Except StripeError α)
    (req : ChargeRequest) (opts : ChargeOptions) :
    chargeAttemptCount (chargesCreateLoop α f req opts 3 1000 0).1 ≤ 3 ∧
    chargeSleeps (chargesCreateLoop α f req opts 3 1000 0).1
      = List.take (chargeAttemptCount (chargesCreateLoop α f req opts 3 1000 0).1 - 1) [1000, 2000] := by
  rcases h0 : f req opts 0 with e0 | c
  · rcases h1 : f req opts 1 with e1 | c
    · rcases h2 : f req opts 2 with e2 | c
      · rw [chargesLoop_exhaust α f req opts e0 e1 e2 h0 h1 h2]
        simp [chargeAttemptCount, chargeSleeps, ChargeEvent.isAttempt, List.countP_cons]
      · rw [chargesLoop_ok2 α f req opts e0 e1 c h0 h1 h2]
        simp [chargeAttemptCount, chargeSleeps, ChargeEvent.isAttempt, List.countP_cons]
    · rw [chargesLoop_ok1 α f req opts e0 c h0 h1]
      simp [chargeAttemptCount, chargeSleeps, ChargeEvent.isAttempt, List.countP_cons]
  · rw [chargesLoop_ok0 α f req opts c h0]
    simp [chargeAttemptCount, chargeSleeps, ChargeEvent.isAttempt, List.countP_cons]

/-- Shape of every possible refund-loop trace: at most 3 attempts, and the
backoff suspensions are the first (attempts - 1) entries of [1000, 2000]. -/
theorem refundsLoop_shape (α : Type) (f : RefundRequest → RefundOptions → Nat → Except StripeError α)
    (req : RefundRequest) (opts : RefundOptions) :
    refundAttemptCount (refundsCreateLoop α f req opts 3 1000 0).1 ≤ 3 ∧
    refundSleeps (refundsCreateLoop α f req opts 3 1000 0).1
      = List.take (refundAttemptCount (refundsCreateLoop α f req opts 3 1000 0).1 - 1) [1000, 2000] := by
  rcases h0 : f req opts 0 with e0 | c
  · by_cases hn0 : e0.rawType = "invalid_request_error"
    · rw [refundsLoop_inv0 α f req opts e0 h0 hn0]
      simp [refundAttemptCount, refundSleeps, RefundEvent.isAttempt, List.countP_cons]
    · rcases h1 : f req opts 1 with e1 | c
      · by_cases hn1 : e1.rawType = "invalid_request_error"
        · rw [refundsLoop_inv1 α f req opts e0 e1 h0 hn0 h1 hn1]
          simp [refundAttemptCount, refundSleeps, RefundEvent.isAttempt, List.countP_cons]
        · rcases h2 : f req opts 2 with e2 | c
          · by_cases hn2 : e2.rawType = "invalid_request_error"
            · rw [refundsLoop_inv2 α f req opts e0 e1 e2 h0 hn0 h1 hn1 h2 hn2]
              simp [refundAttemptCount, refundSleeps, RefundEvent.isAttempt, List.countP_cons]
            · rw [refundsLoop_exhaust α f req opts e0 e1 e2 h0 hn0 h1 hn1 h2 hn2]
              simp [refundAttemptCount, refundSleeps, RefundEvent.isAttempt, List.countP_cons]
          · rw [refundsLoop_ok2 α f req opts e0 e1 c h0 hn0 h1 hn1 h2]
            simp [refundAttemptCount, refundSleeps, RefundEvent.isAttempt, List.countP_cons]
      · rw [refundsLoop_ok1 α f req opts e0 c h0 hn0 h1]
        simp [refundAttemptCount, refundSleeps, RefundEvent.isAttempt, List.countP_cons]
  · rw [refundsLoop_ok0 α f req opts c h0]
    simp [refundAttemptCount, refundSleeps, RefundEvent.isAttempt, List.countP_cons]

/-- Every attempt event in a charge-loop trace carries exactly the request and
options the loop was entered with, whatever the fuel and loop counters. -/
theorem chargesLoop_attempt_fixed (α : Type) (f : ChargeRequest → ChargeOptions → Nat → Except StripeError α)
    (req : ChargeRequest) (opts : ChargeOptions) :
    ∀ (fuel delay retries : Nat) (r : ChargeRequest) (o : ChargeOptions),
      ChargeEvent.attempt r o ∈ (chargesCreateLoop α f req opts fuel delay retries).1 →
      r = req ∧ o = opts := by
  intro fuel
  induction fuel with
  | zero =>
    intro delay retries r o h
    simp [chargesCreateLoop] at h
  | succ n ih =>
    intro delay retries r o h
    rw [chargesCreateLoop] at h
    by_cases h3 : retries < 3
    · rcases hf : f req opts retries with e | c
      · by_cases h2 : retries < 2
        · simp only [if_pos h3, hf, if_pos h2, List.mem_cons] at h
          rcases h with h | h | h
          · injection h with hr ho
            exact ⟨hr, ho⟩
          · exact ChargeEvent.noConfusion h
          · exact ih (delay * 2) (retries + 1) r o h
        · simp only [if_pos h3, hf, if_neg h2, List.mem_cons, List.not_mem_nil, or_false] at h
          injection h with hr ho
          exact ⟨hr, ho⟩
      · simp only [if_pos h3, hf, List.mem_cons, List.not_mem_nil, or_false] at h
        injection h with hr ho
        exact ⟨hr, ho⟩
    · simp only [if_neg h3] at h
      simp at h

/-- C10: when the initial token-exchange call of createChargeByCard fails, the
provider error propagates unwrapped (Thrown.raw, not a charge-domain error), the
token exchange is performed exactly once, and no charge-creation attempt and no
backoff is made: the retry policy applies only to the charge-creation call. -/
theorem C10_token_exchange_error_unwrapped (α : Type)
    (tokens_create : TokenCreateRequest → TokenCreateOptions → Except StripeError StripeToken)
    (charges_create : ChargeRequest → ChargeOptions → Nat → Except StripeError α)
    (acct card : String) (cust : Option String) (amt fee : Int)
    (cur desc key : String) (md : Metadata) (e : StripeError)
    (h : tokens_create { card := card, customer := cust } { stripe_account := acct } = Except.error e) :
    createChargeByCard α tokens_create charges_create acct card cust amt fee cur desc key md
      = ([ChargeEvent.tokenExchange { card := card, customer := cust } { stripe_account := acct }],
         Except.error (Thrown.raw e)) := by
  simp [createChargeByCard, h]

/-- Witness for C10 at a concrete input: the failing token exchange propagates
the provider error unwrapped with no charge attempt. -/
theorem C10_token_exchange_error_unwrapped_witness :
    createChargeByCard String wTokensCreateFail wChargesAlwaysOk "acct_1" "card_1" (some "cus_1")
        100 10 "eur" "d" "key_1" []
      = ([ChargeEvent.tokenExchange { card := "card_1", customer := some "cus_1" }
            { stripe_account := "acct_1" }],
         Except.error (Thrown.raw { rawType := "api_connection_error", message := "network down" })) :=
  C10_token_exchange_error_unwrapped String wTokensCreateFail wChargesAlwaysOk "acct_1" "card_1"
    (some "cus_1") 100 10 "eur" "d" "key_1" []
    { rawType := "api_connection_error", message := "network down" } rfl

/-- C5 counterexample: with a caller-supplied customer, createChargeByCard does
NOT perform the identical charge path as createChargeByToken with the derived
token — the claim, read as equality of the post-exchange behaviour with a
createChargeByToken call on the same remaining arguments, fails at this concrete
input because the charge request of createChargeByCard omits the customer field
while createChargeByToken includes it. -/
theorem C5_counterexample_customer_field :
    ¬ (createChargeByCard String wTokensCreateOk wChargesAlwaysOk "acct_1" "card_1" (some "cus_1")
          100 10 "eur" "d" "key_1" []
        = (ChargeEvent.tokenExchange { card := "card_1", customer := some "cus_1" }
              { stripe_account := "acct_1" }
            :: (createChargeByToken String wChargesAlwaysOk "acct_1" "tok_derived" (some "cus_1")
                  100 10 "eur" "d" "key_1" []).1,
           (createChargeByToken String wChargesAlwaysOk "acct_1" "tok_derived" (some "cus_1")
              100 10 "eur" "d" "key_1" []).2)) := by
  decide

/-- C5 (amended): after a successful token exchange, createChargeByCard behaves
exactly as createChargeByToken with the derived token id and with NO customer
field in the charge request (the caller customer goes only into the token
exchange); all other request fields and the retry behaviour are identical. -/
theorem C5_by_card_charge_path_amended (α : Type)
    (tokens_create : TokenCreateRequest → TokenCreateOptions → Except StripeError StripeToken)
    (charges_create : ChargeRequest → ChargeOptions → Nat → Except StripeError α)
    (acct card : String) (cust : Option String) (amt fee : Int)
    (cur desc key : String) (md : Metadata) (t : StripeToken)
    (h : tokens_create { card := card, customer := cust } { stripe_account := acct } = Except.ok t) :
    createChargeByCard α tokens_create charges_create acct card cust amt fee cur desc key md
      = (ChargeEvent.tokenExchange { card := card, customer := cust } { stripe_account := acct }
          :: (createChargeByToken α charges_create acct t.id none amt fee cur desc key md).1,
         (createChargeByToken α charges_create acct t.id none amt fee cur desc key md).2) := by
  simp [createChargeByCard, createChargeByToken, h, chargeByCardRequest, chargeByTokenRequest]

/-- Witness for C5 amended at a concrete input. -/
theorem C5_by_card_charge_path_amended_witness :
    createChargeByCard String wTokensCreateOk wChargesAlwaysOk "acct_1" "card_1" (some "cus_1")
        100 10 "eur" "d" "key_1" []
      = (ChargeEvent.tokenExchange { card := "card_1", customer := some "cus_1" }
            { stripe_account := "acct_1" }
          :: (createChargeByToken String wChargesAlwaysOk "acct_1" "tok_derived" none
                100 10 "eur" "d" "key_1" []).1,
         (createChargeByToken String wChargesAlwaysOk "acct_1" "tok_derived" none
            100 10 "eur" "d" "key_1" []).2) :=
  C5_by_card_charge_path_amended String wTokensCreateOk wChargesAlwaysOk "acct_1" "card_1"
    (some "cus_1") 100 10 "eur" "d" "key_1" [] { id := "tok_derived" } rfl

/-- C6 evaluation: when the caller omits the reason and the flag, the refund
request actually sent carries refund_application_fee true (as the claim says)
but reason "request_by_customer" — not the "requested_by_customer" the claim
and the spec state; the two strings differ, so the code default is a typo that
contradicts the list of possible values in the method documentation itself. -/
theorem C6_refund_defaults_eval :
    (createRefundForCharge String wRefundsAlwaysOk "acct_X" "ch_1" none none none).1
      = [RefundEvent.attempt
          { charge := "ch_1", amount := none, refund_application_fee := true,
            reason := "request_by_customer" }
          { stripe_account := "acct_X" }]
    ∧ "request_by_customer" ≠ "requested_by_customer" :=
  ⟨rfl, by decide⟩

/-- C9: for every provider card list, loadCards returns the map of
buildFromStripeCard over it — a sequence of the same length, and at every index
the output id, brand, expirationMonth, expirationYear and lastFourDigits equal
the provider id, brand, exp_month, exp_year and last4: the mapping is lossless
and order-preserving for these fields. -/
theorem C9_loadCards_lossless_order_preserving
    (customers_listCards : String → Except StripeError (List StripeCard))
    (customerId : String) (cards : List StripeCard)
    (h : customers_listCards customerId = Except.ok cards) :
    (loadCards customers_listCards customerId).2 = Except.ok (List.map buildFromStripeCard cards)
    ∧ (List.map buildFromStripeCard cards).length = cards.length
    ∧ ∀ i : Nat,
        Option.map PaymentCard.id ((List.map buildFromStripeCard cards)[i]?)
            = Option.map StripeCard.id (cards[i]?)
        ∧ Option.map PaymentCard.brand ((List.map buildFromStripeCard cards)[i]?)
            = Option.map StripeCard.brand (cards[i]?)
        ∧ Option.map PaymentCard.expirationMonth ((List.map buildFromStripeCard cards)[i]?)
            = Option.map StripeCard.exp_month (cards[i]?)
        ∧ Option.map PaymentCard.expirationYear ((List.map buildFromStripeCard cards)[i]?)
            = Option.map StripeCard.exp_year (cards[i]?)
        ∧ Option.map PaymentCard.lastFourDigits ((List.map buildFromStripeCard cards)[i]?)
            = Option.map StripeCard.last4 (cards[i]?) := by
  refine ⟨by simp [loadCards, h], by simp, ?_⟩
  intro i
  rcases hc : cards[i]? with _ | c
  all_goals simp [List.getElem?_map, hc, buildFromStripeCard]

/-- Witness for C9 at a concrete two-card list. -/
theorem C9_loadCards_lossless_order_preserving_witness :
    (loadCards wListCardsOk "cus_1").2 = Except.ok (List.map buildFromStripeCard [wCard1, wCard2])
    ∧ (List.map buildFromStripeCard [wCard1, wCard2]).length = ([wCard1, wCard2] : List StripeCard).length :=
  ⟨(C9_loadCards_lossless_order_preserving wListCardsOk "cus_1" [wCard1, wCard2] rfl).1,
   (C9_loadCards_lossless_order_preserving wListCardsOk "cus_1" [wCard1, wCard2] rfl).2.1⟩

/-- C8: each of createCustomer, retrieveToken, createCard, removeCard, loadCards
and loadCharges makes exactly one provider call (no retries), and any failure of
that call is raised as a card-domain error wrapping the provider error. -/
theorem C8_single_attempt_card_error_wrapping (α β : Type)
    (customers_create : CustomerCreateRequest → Except StripeError α)
    (tokens_retrieve : String → Except StripeError α)
    (customers_createSource : String → SourceCreateRequest → Except StripeError StripeCard)
    (customers_deleteCard : String → String → Except StripeError α)
    (customers_listCards : String → Except StripeError (List StripeCard))
    (charges_list : ChargesListRequest → ChargesListOptions → Except StripeError (List β))
    (email tokenId customerId cardId stripeAccount : String) (limit : Option Int) :
    (createCustomer α customers_create email tokenId).1 = [{ email := email, source := tokenId }]
    ∧ (∀ e, customers_create { email := email, source := tokenId } = Except.error e →
        (createCustomer α customers_create email tokenId).2 = Except.error (Thrown.cardError e))
    ∧ (retrieveToken α tokens_retrieve tokenId).1 = [tokenId]
    ∧ (∀ e, tokens_retrieve tokenId = Except.error e →
        (retrieveToken α tokens_retrieve tokenId).2 = Except.error (Thrown.cardError e))
    ∧ (createCard customers_createSource customerId tokenId).1 = [(customerId, { source := tokenId })]
    ∧ (∀ e, customers_createSource customerId { source := tokenId } = Except.error e →
        (createCard customers_createSource customerId tokenId).2 = Except.error (Thrown.cardError e))
    ∧ (removeCard α customers_deleteCard customerId cardId).1 = [(customerId, cardId)]
    ∧ (∀ e, customers_deleteCard customerId cardId = Except.error e →
        (removeCard α customers_deleteCard customerId cardId).2 = Except.error (Thrown.cardError e))
    ∧ (loadCards customers_listCards customerId).1 = [customerId]
    ∧ (∀ e, customers_listCards customerId = Except.error e →
        (loadCards customers_listCards customerId).2 = Except.error (Thrown.cardError e))
    ∧ (loadCharges β charges_list stripeAccount limit).1
        = [({ limit := limit }, { stripe_account := stripeAccount })]
    ∧ (∀ e, charges_list { limit := limit } { stripe_account := stripeAccount } = Except.error e →
        (loadCharges β charges_list stripeAccount limit).2 = Except.error (Thrown.cardError e)) := by
  refine ⟨?_, ?_, ?_, ?_, ?_, ?_, ?_, ?_, ?_, ?_, ?_, ?_⟩
  · rcases h : customers_create { email := email, source := tokenId } with e | c <;>
      simp [createCustomer, h]
  · intro e h
    simp [createCustomer, h]
  · rcases h : tokens_retrieve tokenId with e | c <;> simp [retrieveToken, h]
  · intro e h
    simp [retrieveToken, h]
  · rcases h : customers_createSource customerId { source := tokenId } with e | c <;>
      simp [createCard, h]
  · intro e h
    simp [createCard, h]
  · rcases h : customers_deleteCard customerId cardId with e | c <;> simp [removeCard, h]
  · intro e h
    simp [removeCard, h]
  · rcases h : customers_listCards customerId with e | c <;> simp [loadCards, h]
  · intro e h
    simp [loadCards, h]
  · rcases h : charges_list { limit := limit } { stripe_account := stripeAccount } with e | c <;>
      simp [loadCharges, h]
  · intro e h
    simp [loadCharges, h]

/-- Witness for C8 at a concrete failing customer creation. -/
theorem C8_single_attempt_card_error_wrapping_witness :
    (createCustomer String wCustomersCreateFail "a@b.c" "tok_1").2
      = Except.error (Thrown.cardError { rawType := "api_error", message := "temporary failure" }) :=
  (C8_single_attempt_card_error_wrapping String String wCustomersCreateFail wTokensRetrieveOk
      wCreateSourceOk wDeleteCardOk wListCardsOk wChargesListOk
      "a@b.c" "tok_1" "cus_1" "card_1" "acct_1" (some 2)).2.1
    { rawType := "api_error", message := "temporary failure" } rfl

/-- C7: connectAccountToStripeConnect issues a form-encoded POST to the
configured authorize URL whose form carries the grant type (defaulting to
authorization_code when the caller omits it), the client id and the secret key
as client secret; the form carries the code field exactly when the grant type is
authorization_code and the refresh_token field exactly otherwise; and a
transport failure raises an authorisation-domain error carrying the provider
error payload. -/
theorem C7_connect_request_shape_and_error_wrapping (α : Type)
    (post : HttpOptions → Except TransportError String) (jsonParse : String → α)
    (config : StripeConnectConfiguration) (tokenOrCode : String)
    (grantType : Option GrantType) :
    (connectOptions config tokenOrCode (grantTypeOrDefault grantType)).method = "POST"
    ∧ (connectOptions config tokenOrCode (grantTypeOrDefault grantType)).uri
        = config.stripeConnectAuthorizeURL
    ∧ (connectOptions config tokenOrCode (grantTypeOrDefault grantType)).form.grant_type
        = grantTypeOrDefault grantType
    ∧ grantTypeOrDefault none = GrantType.authorization_code
    ∧ (connectOptions config tokenOrCode (grantTypeOrDefault grantType)).form.client_id
        = config.stripeClientId
    ∧ (connectOptions config tokenOrCode (grantTypeOrDefault grantType)).form.client_secret
        = config.stripeSecretKey
    ∧ ((connectOptions config tokenOrCode (grantTypeOrDefault grantType)).form.code
          = some tokenOrCode ↔ grantTypeOrDefault grantType = GrantType.authorization_code)
    ∧ ((connectOptions config tokenOrCode (grantTypeOrDefault grantType)).form.refresh_token
          = some tokenOrCode ↔ grantTypeOrDefault grantType = GrantType.refresh_token)
    ∧ ((connectOptions config tokenOrCode (grantTypeOrDefault grantType)).form.code
          = none ↔ grantTypeOrDefault grantType = GrantType.refresh_token)
    ∧ ((connectOptions config tokenOrCode (grantTypeOrDefault grantType)).form.refresh_token
          = none ↔ grantTypeOrDefault grantType = GrantType.authorization_code)
    ∧ (∀ e, post (connectOptions config tokenOrCode (grantTypeOrDefault grantType))
          = Except.error e →
        connectAccountToStripeConnect α post jsonParse config tokenOrCode grantType
          = Except.error (Thrown.authorisationError e.error)) := by
  have hmain : ∀ gt : GrantType, gt = grantTypeOrDefault grantType →
      (connectOptions config tokenOrCode (grantTypeOrDefault grantType)).method = "POST"
      ∧ (connectOptions config tokenOrCode (grantTypeOrDefault grantType)).uri
          = config.stripeConnectAuthorizeURL
      ∧ (connectOptions config tokenOrCode (grantTypeOrDefault grantType)).form.grant_type
          = grantTypeOrDefault grantType
      ∧ (connectOptions config tokenOrCode (grantTypeOrDefault grantType)).form.client_id
          = config.stripeClientId
      ∧ (connectOptions config tokenOrCode (grantTypeOrDefault grantType)).form.client_secret
          = config.stripeSecretKey
      ∧ ((connectOptions config tokenOrCode (grantTypeOrDefault grantType)).form.code
            = some tokenOrCode ↔ grantTypeOrDefault grantType = GrantType.authorization_code)
      ∧ ((connectOptions config tokenOrCode (grantTypeOrDefault grantType)).form.refresh_token
            = some tokenOrCode ↔ grantTypeOrDefault grantType = GrantType.refresh_token)
      ∧ ((connectOptions config tokenOrCode (grantTypeOrDefault grantType)).form.code
            = none ↔ grantTypeOrDefault grantType = GrantType.refresh_token)
      ∧ ((connectOptions config tokenOrCode (grantTypeOrDefault grantType)).form.refresh_token
            = none ↔ grantTypeOrDefault grantType = GrantType.authorization_code) := by
    intro gt hgt
    cases gt with
    | authorization_code => rw [← hgt]; simp [connectOptions]
    | refresh_token => rw [← hgt]; simp [connectOptions]
  obtain ⟨h1, h2, h3, h4, h5, h6, h7, h8, h9⟩ := hmain (grantTypeOrDefault grantType) rfl
  refine ⟨h1, h2, h3, rfl, h4, h5, h6, h7, h8, h9, ?_⟩
  intro e he
  simp [connectAccountToStripeConnect, he]

/-- Witness for C7 at a concrete input with a failing transport. -/
theorem C7_connect_request_shape_and_error_wrapping_witness :
    connectAccountToStripeConnect String wPostFail wJsonParseId
        { stripeSecretKey := "sk_1", stripeClientId := "ca_1",
          stripeConnectAuthorizeURL := "https://connect.example/token",
          stripeConnectDeAuthorizeURL := "https://connect.example/deauthorize" }
        "code_1" none
      = Except.error (Thrown.authorisationError "invalid_grant") :=
  (C7_connect_request_shape_and_error_wrapping String wPostFail wJsonParseId
      { stripeSecretKey := "sk_1", stripeClientId := "ca_1",
        stripeConnectAuthorizeURL := "https://connect.example/token",
        stripeConnectDeAuthorizeURL := "https://connect.example/deauthorize" }
      "code_1" none).2.2.2.2.2.2.2.2.2.2 { error := "invalid_grant" } rfl

/-- C2: whenever an attempt of createRefundForCharge fails with an
invalid-request class error (rawType invalid_request_error), the call stops
with no further attempt and no raised error, returning the sentinel object with
id STRIPE_DASHBOARD, the provider error message as balance_transaction, the
caller requested amount, and the charge id.  Stated for the three possible
positions of that attempt (earlier attempts, if any, having failed with
non-invalid-request errors). -/
theorem C2_refund_invalid_request_dashboard_sentinel (α : Type)
    (refunds_create : RefundRequest → RefundOptions → Nat → Except StripeError α)
    (acct chTok : String) (rsn : Option String) (raf : Option Bool) (ramt : Option Int) :
    (∀ e0, refunds_create
          (refundRequestOf chTok ramt (raf.getD true) (rsn.getD "request_by_customer"))
          (refundCallOptions acct) 0 = Except.error e0 →
        e0.rawType = "invalid_request_error" →
      createRefundForCharge α refunds_create acct chTok rsn raf ramt
        = ([RefundEvent.attempt
              (refundRequestOf chTok ramt (raf.getD true) (rsn.getD "request_by_customer"))
              (refundCallOptions acct)],
           Except.ok (some (Sum.inr
             { id := "STRIPE_DASHBOARD", balance_transaction := e0.message,
               amount := ramt, charge := chTok }))))
    ∧ (∀ e0 e1, refunds_create
          (refundRequestOf chTok ramt (raf.getD true) (rsn.getD "request_by_customer"))
          (refundCallOptions acct) 0 = Except.error e0 →
        e0.rawType ≠ "invalid_request_error" →
        refunds_create
          (refundRequestOf chTok ramt (raf.getD true) (rsn.getD "request_by_customer"))
          (refundCallOptions acct) 1 = Except.error e1 →
        e1.rawType = "invalid_request_error" →
      createRefundForCharge α refunds_create acct chTok rsn raf ramt
        = ([RefundEvent.attempt
              (refundRequestOf chTok ramt (raf.getD true) (rsn.getD "request_by_customer"))
              (refundCallOptions acct),
            RefundEvent.sleep 1000,
            RefundEvent.attempt
              (refundRequestOf chTok ramt (raf.getD true) (rsn.getD "request_by_customer"))
              (refundCallOptions acct)],
           Except.ok (some (Sum.inr
             { id := "STRIPE_DASHBOARD", balance_transaction := e1.message,
               amount := ramt, charge := chTok }))))
    ∧ (∀ e0 e1 e2, refunds_create
          (refundRequestOf chTok ramt (raf.getD true) (rsn.getD "request_by_customer"))
          (refundCallOptions acct) 0 = Except.error e0 →
        e0.rawType ≠ "invalid_request_error" →
        refunds_create
          (refundRequestOf chTok ramt (raf.getD true) (rsn.getD "request_by_customer"))
          (refundCallOptions acct) 1 = Except.error e1 →
        e1.rawType ≠ "invalid_request_error" →
        refunds_create
          (refundRequestOf chTok ramt (raf.getD true) (rsn.getD "request_by_customer"))
          (refundCallOptions acct) 2 = Except.error e2 →
        e2.rawType = "invalid_request_error" →
      createRefundForCharge α refunds_create acct chTok rsn raf ramt
        = ([RefundEvent.attempt
              (refundRequestOf chTok ramt (raf.getD true) (rsn.getD "request_by_customer"))
              (refundCallOptions acct),
            RefundEvent.sleep 1000,
            RefundEvent.attempt
              (refundRequestOf chTok ramt (raf.getD true) (rsn.getD "request_by_customer"))
              (refundCallOptions acct),
            RefundEvent.sleep 2000,
            RefundEvent.attempt
              (refundRequestOf chTok ramt (raf.getD true) (rsn.getD "request_by_customer"))
              (refundCallOptions acct)],
           Except.ok (some (Sum.inr
             { id := "STRIPE_DASHBOARD", balance_transaction := e2.message,
               amount := ramt, charge := chTok })))) := by
  refine ⟨?_, ?_, ?_⟩
  · intro e0 h0 hi
    exact refundsLoop_inv0 α refunds_create _ _ e0 h0 hi
  · intro e0 e1 h0 hn0 h1 hi
    exact refundsLoop_inv1 α refunds_create _ _ e0 e1 h0 hn0 h1 hi
  · intro e0 e1 e2 h0 hn0 h1 hn1 h2 hi
    exact refundsLoop_inv2 α refunds_create _ _ e0 e1 e2 h0 hn0 h1 hn1 h2 hi

/-- Witness for C2: an invalid-request error on the first attempt yields the
dashboard sentinel carrying the requested amount and charge id. -/
theorem C2_refund_invalid_request_dashboard_sentinel_witness :
    createRefundForCharge String wRefundsInvalidRequest "acct_X" "ch_1" none none (some 500)
      = ([RefundEvent.attempt
            (refundRequestOf "ch_1" (some 500) true "request_by_customer")
            (refundCallOptions "acct_X")],
         Except.ok (some (Sum.inr
           { id := "STRIPE_DASHBOARD", balance_transaction := "already refunded in dashboard",
             amount := some 500, charge := "ch_1" }))) :=
  (C2_refund_invalid_request_dashboard_sentinel String wRefundsInvalidRequest "acct_X" "ch_1"
      none none (some 500)).1
    { rawType := "invalid_request_error", message := "already refunded in dashboard" } rfl rfl

/-- C3: when all three attempts fail, createChargeByToken and createChargeByCard
raise a charge-domain error wrapping the final provider error, whatever the
error type; and createRefundForCharge, when all three attempts fail with
non-invalid-request errors, raises a refund-domain error wrapping the final
provider error. -/
theorem C3_retry_exhaustion_wraps_final_error (α : Type)
    (charges_create : ChargeRequest → ChargeOptions → Nat → Except StripeError α)
    (tokens_create : TokenCreateRequest → TokenCreateOptions → Except StripeError StripeToken)
    (refunds_create : RefundRequest → RefundOptions → Nat → Except StripeError α)
    (acct tok card chTok : String) (cust : Option String) (amt fee : Int)
    (cur desc key : String) (md : Metadata) (rsn : Option String)
    (raf : Option Bool) (ramt : Option Int) :
    (∀ e0 e1 e2,
        charges_create (chargeByTokenRequest tok cust amt fee cur desc md)
          (chargeCallOptions acct key) 0 = Except.error e0 →
        charges_create (chargeByTokenRequest tok cust amt fee cur desc md)
          (chargeCallOptions acct key) 1 = Except.error e1 →
        charges_create (chargeByTokenRequest tok cust amt fee cur desc md)
          (chargeCallOptions acct key) 2 = Except.error e2 →
      (createChargeByToken α charges_create acct tok cust amt fee cur desc key md).2
        = Except.error (Thrown.chargeError e2))
    ∧ (∀ t e0 e1 e2,
        tokens_create { card := card, customer := cust } { stripe_account := acct }
          = Except.ok t →
        charges_create (chargeByCardRequest t.id amt fee cur desc md)
          (chargeCallOptions acct key) 0 = Except.error e0 →
        charges_create (chargeByCardRequest t.id amt fee cur desc md)
          (chargeCallOptions acct key) 1 = Except.error e1 →
        charges_create (chargeByCardRequest t.id amt fee cur desc md)
          (chargeCallOptions acct key) 2 = Except.error e2 →
      (createChargeByCard α tokens_create charges_create acct card cust amt fee cur desc key md).2
        = Except.error (Thrown.chargeError e2))
    ∧ (∀ e0 e1 e2,
        refunds_create
          (refundRequestOf chTok ramt (raf.getD true) (rsn.getD "request_by_customer"))
          (refundCallOptions acct) 0 = Except.error e0 →
        e0.rawType ≠ "invalid_request_error" →
        refunds_create
          (refundRequestOf chTok ramt (raf.getD true) (rsn.getD "request_by_customer"))
          (refundCallOptions acct) 1 = Except.error e1 →
        e1.rawType ≠ "invalid_request_error" →
        refunds_create
          (refundRequestOf chTok ramt (raf.getD true) (rsn.getD "request_by_customer"))
          (refundCallOptions acct) 2 = Except.error e2 →
        e2.rawType ≠ "invalid_request_error" →
      (createRefundForCharge α refunds_create acct chTok rsn raf ramt).2
        = Except.error (Thrown.refundError e2)) := by
  refine ⟨?_, ?_, ?_⟩
  · intro e0 e1 e2 h0 h1 h2
    exact congrArg Prod.snd (chargesLoop_exhaust α charges_create _ _ e0 e1 e2 h0 h1 h2)
  · intro t e0 e1 e2 ht h0 h1 h2
    simp [createChargeByCard, ht, chargesLoop_exhaust α charges_create _ _ e0 e1 e2 h0 h1 h2]
  · intro e0 e1 e2 h0 hn0 h1 hn1 h2 hn2
    exact congrArg Prod.snd
      (refundsLoop_exhaust α refunds_create _ _ e0 e1 e2 h0 hn0 h1 hn1 h2 hn2)

/-- Witness for C3: three declined charge attempts end in a charge-domain error
wrapping the final provider error. -/
theorem C3_retry_exhaustion_wraps_final_error_witness :
    (createChargeByToken String wChargesAlwaysFail "acct_1" "tok_1" none 100 10 "eur" "d" "key_1" []).2
      = Except.error (Thrown.chargeError { rawType := "api_error", message := "temporary failure" }) :=
  (C3_retry_exhaustion_wraps_final_error String wChargesAlwaysFail wTokensCreateOk
      wRefundsAlwaysFail "acct_1" "tok_1" "card_1" "ch_1" none 100 10 "eur" "d" "key_1" []
      none none none).1
    { rawType := "api_error", message := "temporary failure" }
    { rawType := "api_error", message := "temporary failure" }
    { rawType := "api_error", message := "temporary failure" } rfl rfl rfl

/-- C4: every charges.create attempt made by createChargeByToken or
createChargeByCard within one call carries the caller-supplied idempotency key,
unchanged across retries (the attempt options are the single options object
built from the stripeAccount and idempotency_key arguments). -/
theorem C4_idempotency_key_constant_across_attempts (α : Type)
    (charges_create : ChargeRequest → ChargeOptions → Nat → Except StripeError α)
    (tokens_create : TokenCreateRequest → TokenCreateOptions → Except StripeError StripeToken)
    (acct tok card : String) (cust : Option String) (amt fee : Int)
    (cur desc key : String) (md : Metadata) :
    (∀ r o, ChargeEvent.attempt r o
        ∈ (createChargeByToken α charges_create acct tok cust amt fee cur desc key md).1 →
      o.idempotency_key = key)
    ∧ (∀ r o, ChargeEvent.attempt r o
        ∈ (createChargeByCard α tokens_create charges_create acct card cust amt fee cur desc key md).1 →
      o.idempotency_key = key) := by
  constructor
  · intro r o h
    simp only [createChargeByToken] at h
    obtain ⟨-, ho⟩ := chargesLoop_attempt_fixed α charges_create
      (chargeByTokenRequest tok cust amt fee cur desc md) (chargeCallOptions acct key)
      3 1000 0 r o h
    rw [ho]
    rfl
  · intro r o h
    rcases ht : tokens_create { card := card, customer := cust } { stripe_account := acct }
      with e | t
    · simp [createChargeByCard, ht] at h
    · simp only [createChargeByCard, ht, List.mem_cons] at h
      rcases h with h | h
      · exact ChargeEvent.noConfusion h
      · obtain ⟨-, ho⟩ := chargesLoop_attempt_fixed α charges_create
          (chargeByCardRequest t.id amt fee cur desc md) (chargeCallOptions acct key)
          3 1000 0 r o h
        rw [ho]
        rfl

/-- Witness for C4: a concrete retried call in which the second attempt event
demonstrably carries the same idempotency key as the first. -/
theorem C4_idempotency_key_constant_across_attempts_witness :
    (chargeCallOptions "acct_1" "key_1").idempotency_key = "key_1" :=
  (C4_idempotency_key_constant_across_attempts String wChargesFailTwice wTokensCreateOk
      "acct_1" "tok_1" "card_1" none 100 10 "eur" "d" "key_1" []).1
    (chargeByTokenRequest "tok_1" none 100 10 "eur" "d" [])
    (chargeCallOptions "acct_1" "key_1") (by decide)

/-- C1: in every call to createChargeByToken, createChargeByCard or
createRefundForCharge the provider creation call is attempted at most 3 times;
the suspensions between consecutive attempts are exactly 1000ms after the first
failure and 2000ms after the second (the first attempts-minus-one entries of
[1000, 2000]); and a success on any attempt returns the provider object
immediately, with no further attempt or suspension (shown by the exact trace
for a success on the 1st, 2nd and 3rd attempt of each operation). -/
theorem C1_bounded_retry_and_backoff (α : Type)
    (charges_create : ChargeRequest → ChargeOptions → Nat → Except StripeError α)
    (tokens_create : TokenCreateRequest → TokenCreateOptions → Except StripeError StripeToken)
    (refunds_create : RefundRequest → RefundOptions → Nat → Except StripeError α)
    (acct tok card chTok : String) (cust : Option String) (amt fee : Int)
    (cur desc key : String) (md : Metadata) (rsn : Option String)
    (raf : Option Bool) (ramt : Option Int) :
    chargeAttemptCount (createChargeByToken α charges_create acct tok cust amt fee cur desc key md).1 ≤ 3
    ∧ chargeSleeps (createChargeByToken α charges_create acct tok cust amt fee cur desc key md).1
        = List.take
            (chargeAttemptCount (createChargeByToken α charges_create acct tok cust amt fee cur desc key md).1 - 1)
            [1000, 2000]
    ∧ (∀ c, charges_create (chargeByTokenRequest tok cust amt fee cur desc md)
          (chargeCallOptions acct key) 0 = Except.ok c →
        createChargeByToken α charges_create acct tok cust amt fee cur desc key md
          = ([ChargeEvent.attempt (chargeByTokenRequest tok cust amt fee cur desc md)
                (chargeCallOptions acct key)],
             Except.ok (some c)))
    ∧ (∀ e0 c, charges_create (chargeByTokenRequest tok cust amt fee cur desc md)
          (chargeCallOptions acct key) 0 = Except.error e0 →
        charges_create (chargeByTokenRequest tok cust amt fee cur desc md)
          (chargeCallOptions acct key) 1 = Except.ok c →
        createChargeByToken α charges_create acct tok cust amt fee cur desc key md
          = ([ChargeEvent.attempt (chargeByTokenRequest tok cust amt fee cur desc md)
                (chargeCallOptions acct key),
              ChargeEvent.sleep 1000,
              ChargeEvent.attempt (chargeByTokenRequest tok cust amt fee cur desc md)
                (chargeCallOptions acct key)],
             Except.ok (some c)))
    ∧ (∀ e0 e1 c, charges_create (chargeByTokenRequest tok cust amt fee cur desc md)
          (chargeCallOptions acct key) 0 = Except.error e0 →
        charges_create (chargeByTokenRequest tok cust amt fee cur desc md)
          (chargeCallOptions acct key) 1 = Except.error e1 →
        charges_create (chargeByTokenRequest tok cust amt fee cur desc md)
          (chargeCallOptions acct key) 2 = Except.ok c →
        createChargeByToken α charges_create acct tok cust amt fee cur desc key md
          = ([ChargeEvent.attempt (chargeByTokenRequest tok cust amt fee cur desc md)
                (chargeCallOptions acct key),
              ChargeEvent.sleep 1000,
              ChargeEvent.attempt (chargeByTokenRequest tok cust amt fee cur desc md)
                (chargeCallOptions acct key),
              ChargeEvent.sleep 2000,
              ChargeEvent.attempt (chargeByTokenRequest tok cust amt fee cur desc md)
                (chargeCallOptions acct key)],
             Except.ok (some c)))
    ∧ chargeAttemptCount
        (createChargeByCard α tokens_create charges_create acct card cust amt fee cur desc key md).1 ≤ 3
    ∧ chargeSleeps
        (createChargeByCard α tokens_create charges_create acct card cust amt fee cur desc key md).1
        = List.take
            (chargeAttemptCount
              (createChargeByCard α tokens_create charges_create acct card cust amt fee cur desc key md).1 - 1)
            [1000, 2000]
    ∧ (∀ t c, tokens_create { card := card, customer := cust } { stripe_account := acct }
          = Except.ok t →
        charges_create (chargeByCardRequest t.id amt fee cur desc md)
          (chargeCallOptions acct key) 0 = Except.ok c →
        createChargeByCard α tokens_create charges_create acct card cust amt fee cur desc key md
          = ([ChargeEvent.tokenExchange { card := card, customer := cust } { stripe_account := acct },
              ChargeEvent.attempt (chargeByCardRequest t.id amt fee cur desc md)
                (chargeCallOptions acct key)],
             Except.ok (some c)))
    ∧ (∀ t e0 c, tokens_create { card := card, customer := cust } { stripe_account := acct }
          = Except.ok t →
        charges_create (chargeByCardRequest t.id amt fee cur desc md)
          (chargeCallOptions acct key) 0 = Except.error e0 →
        charges_create (chargeByCardRequest t.id amt fee cur desc md)
          (chargeCallOptions acct key) 1 = Except.ok c →
        createChargeByCard α tokens_create charges_create acct card cust amt fee cur desc key md
          = ([ChargeEvent.tokenExchange { card := card, customer := cust } { stripe_account := acct },
              ChargeEvent.attempt (chargeByCardRequest t.id amt fee cur desc md)
                (chargeCallOptions acct key),
              ChargeEvent.sleep 1000,
              ChargeEvent.attempt (chargeByCardRequest t.id amt fee cur desc md)
                (chargeCallOptions acct key)],
             Except.ok (some c)))
    ∧ (∀ t e0 e1 c, tokens_create { card := card, customer := cust } { stripe_account := acct }
          = Except.ok t →
        charges_create (chargeByCardRequest t.id amt fee cur desc md)
          (chargeCallOptions acct key) 0 = Except.error e0 →
        charges_create (chargeByCardRequest t.id amt fee cur desc md)
          (chargeCallOptions acct key) 1 = Except.error e1 →
        charges_create (chargeByCardRequest t.id amt fee cur desc md)
          (chargeCallOptions acct key) 2 = Except.ok c →
        createChargeByCard α tokens_create charges_create acct card cust amt fee cur desc key md
          = ([ChargeEvent.tokenExchange { card := card, customer := cust } { stripe_account := acct },
              ChargeEvent.attempt (chargeByCardRequest t.id amt fee cur desc md)
                (chargeCallOptions acct key),
              ChargeEvent.sleep 1000,
              ChargeEvent.attempt (chargeByCardRequest t.id amt fee cur desc md)
                (chargeCallOptions acct key),
              ChargeEvent.sleep 2000,
              ChargeEvent.attempt (chargeByCardRequest t.id amt fee cur desc md)
                (chargeCallOptions acct key)],
             Except.ok (some c)))
    ∧ refundAttemptCount (createRefundForCharge α refunds_create acct chTok rsn raf ramt).1 ≤ 3
    ∧ refundSleeps (createRefundForCharge α refunds_create acct chTok rsn raf ramt).1
        = List.take
            (refundAttemptCount (createRefundForCharge α refunds_create acct chTok rsn raf ramt).1 - 1)
            [1000, 2000]
    ∧ (∀ c, refunds_create
          (refundRequestOf chTok ramt (raf.getD true) (rsn.getD "request_by_customer"))
          (refundCallOptions acct) 0 = Except.ok c →
        createRefundForCharge α refunds_create acct chTok rsn raf ramt
          = ([RefundEvent.attempt
                (refundRequestOf chTok ramt (raf.getD true) (rsn.getD "request_by_customer"))
                (refundCallOptions acct)],
             Except.ok (some (Sum.inl c))))
    ∧ (∀ e0 c, refunds_create
          (refundRequestOf chTok ramt (raf.getD true) (rsn.getD "request_by_customer"))
          (refundCallOptions acct) 0 = Except.error e0 →
        e0.rawType ≠ "invalid_request_error" →
        refunds_create
          (refundRequestOf chTok ramt (raf.getD true) (rsn.getD "request_by_customer"))
          (refundCallOptions acct) 1 = Except.ok c →
        createRefundForCharge α refunds_create acct chTok rsn raf ramt
          = ([RefundEvent.attempt
                (refundRequestOf chTok ramt (raf.getD true) (rsn.getD "request_by_customer"))
                (refundCallOptions acct),
              RefundEvent.sleep 1000,
              RefundEvent.attempt
                (refundRequestOf chTok ramt (raf.getD true) (rsn.getD "request_by_customer"))
                (refundCallOptions acct)],
             Except.ok (some (Sum.inl c))))
    ∧ (∀ e0 e1 c, refunds_create
          (refundRequestOf chTok ramt (raf.getD true) (rsn.getD "request_by_customer"))
          (refundCallOptions acct) 0 = Except.error e0 →
        e0.rawType ≠ "invalid_request_error" →
        refunds_create
          (refundRequestOf chTok ramt (raf.getD true) (rsn.getD "request_by_customer"))
          (refundCallOptions acct) 1 = Except.error e1 →
        e1.rawType ≠ "invalid_request_error" →
        refunds_create
          (refundRequestOf chTok ramt (raf.getD true) (rsn.getD "request_by_customer"))
          (refundCallOptions acct) 2 = Except.ok c →
        createRefundForCharge α refunds_create acct chTok rsn raf ramt
          = ([RefundEvent.attempt
                (refundRequestOf chTok ramt (raf.getD true) (rsn.getD "request_by_customer"))
                (refundCallOptions acct),
              RefundEvent.sleep 1000,
              RefundEvent.attempt
                (refundRequestOf chTok ramt (raf.getD true) (rsn.getD "request_by_customer"))
                (refundCallOptions acct),
              RefundEvent.sleep 2000,
              RefundEvent.attempt
                (refundRequestOf chTok ramt (raf.getD true) (rsn.getD "request_by_customer"))
                (refundCallOptions acct)],
             Except.ok (some (Sum.inl c)))) := by
  refine ⟨?_, ?_, ?_, ?_, ?_, ?_, ?_, ?_, ?_, ?_, ?_, ?_, ?_, ?_, ?_⟩
  · exact (chargesLoop_shape α charges_create
      (chargeByTokenRequest tok cust amt fee cur desc md) (chargeCallOptions acct key)).1
  · exact (chargesLoop_shape α charges_create
      (chargeByTokenRequest tok cust amt fee cur desc md) (chargeCallOptions acct key)).2
  · intro c h0
    exact chargesLoop_ok0 α charges_create _ _ c h0
  · intro e0 c h0 h1
    exact chargesLoop_ok1 α charges_create _ _ e0 c h0 h1
  · intro e0 e1 c h0 h1 h2
    exact chargesLoop_ok2 α charges_create _ _ e0 e1 c h0 h1 h2
  · rcases ht : tokens_create { card := card, customer := cust } { stripe_account := acct }
      with e | t
    · simp [createChargeByCard, ht, chargeAttemptCount, ChargeEvent.isAttempt]
    · have hs := (chargesLoop_shape α charges_create
        (chargeByCardRequest t.id amt fee cur desc md) (chargeCallOptions acct key)).1
      simpa [createChargeByCard, ht, chargeAttemptCount, ChargeEvent.isAttempt,
        List.countP_cons] using hs
  · rcases ht : tokens_create { card := card, customer := cust } { stripe_account := acct }
      with e | t
    · simp [createChargeByCard, ht, chargeAttemptCount, chargeSleeps, ChargeEvent.isAttempt]
    · have hs := (chargesLoop_shape α charges_create
        (chargeByCardRequest t.id amt fee cur desc md) (chargeCallOptions acct key)).2
      simpa [createChargeByCard, ht, chargeAttemptCount, chargeSleeps, ChargeEvent.isAttempt,
        List.countP_cons] using hs
  · intro t c ht h0
    simp [createChargeByCard, ht, chargesLoop_ok0 α charges_create _ _ c h0]
  · intro t e0 c ht h0 h1
    simp [createChargeByCard, ht, chargesLoop_ok1 α charges_create _ _ e0 c h0 h1]
  · intro t e0 e1 c ht h0 h1 h2
    simp [createChargeByCard, ht, chargesLoop_ok2 α charges_create _ _ e0 e1 c h0 h1 h2]
  · exact (refundsLoop_shape α refunds_create
      (refundRequestOf chTok ramt (raf.getD true) (rsn.getD "request_by_customer"))
      (refundCallOptions acct)).1
  · exact (refundsLoop_shape α refunds_create
      (refundRequestOf chTok ramt (raf.getD true) (rsn.getD "request_by_customer"))
      (refundCallOptions acct)).2
  · intro c h0
    exact refundsLoop_ok0 α refunds_create _ _ c h0
  · intro e0 c h0 hn0 h1
    exact refundsLoop_ok1 α refunds_create _ _ e0 c h0 hn0 h1
  · intro e0 e1 c h0 hn0 h1 hn1 h2
    exact refundsLoop_ok2 α refunds_create _ _ e0 e1 c h0 hn0 h1 hn1 h2

/-- Witness for C1: a charge call that fails twice then succeeds makes exactly
3 attempts with suspensions of 1000ms then 2000ms and returns the provider
object of the 3rd attempt. -/
theorem C1_bounded_retry_and_backoff_witness :
    createChargeByToken String wChargesFailTwice "acct_1" "tok_1" none 100 10 "eur" "d" "key_1" []
      = ([ChargeEvent.attempt (chargeByTokenRequest "tok_1" none 100 10 "eur" "d" [])
            (chargeCallOptions "acct_1" "key_1"),
          ChargeEvent.sleep 1000,
          ChargeEvent.attempt (chargeByTokenRequest "tok_1" none 100 10 "eur" "d" [])
            (chargeCallOptions "acct_1" "key_1"),
          ChargeEvent.sleep 2000,
          ChargeEvent.attempt (chargeByTokenRequest "tok_1" none 100 10 "eur" "d" [])
            (chargeCallOptions "acct_1" "key_1")],
         Except.ok (some "ch_success")) :=
  (C1_bounded_retry_and_backoff String wChargesFailTwice wTokensCreateOk wRefundsAlwaysOk
      "acct_1" "tok_1" "card_1" "ch_1" none 100 10 "eur" "d" "key_1" []
      none none none).2.2.2.2.1
    { rawType := "api_error", message := "temporary failure" }
    { rawType := "api_error", message := "temporary failure" } "ch_success" rfl rfl rfl
